import Mathlib

/-!
Shallow embedding of `src/src-tauri/src/lib.rs` from the kc-songbook-framework
repository.

The source is a Tauri application bootstrap: the entry point `run` registers
three framework plugins (dialog, HTTP, leveled log) on a builder, installs a
setup closure that constructs one webview window whose configuration is chosen
by three compile-time `cfg` branches (macOS / non-macOS desktop / mobile), and
hands control to the framework run loop, aborting with a fixed diagnostic
message on any setup error.

Compile-time `cfg` predicates are modelled as functions over an enumeration of
target platforms.  Logical pixel sizes appear in the source only as integral
float literals (1024.0, 768.0, 400.0, 300.0), so they are modelled as naturals.
Window construction by the framework is external code, so `build` is an
abstract fallible function passed as a parameter; `?` propagation and the final
`expect` are modelled explicitly on `Except`.
-/

/-- Target platforms distinguished by the source's `cfg` attributes:
`target_os = "macos"`, other desktop OSes, and the mobile OSes for which
Tauri sets the `mobile` cfg flag. -/
inductive TargetOs where
  | macos
  | windows
  | linux
  | ios
  | android
deriving DecidableEq, Repr, Fintype

/-- The Tauri `mobile` cfg flag: set exactly on iOS and Android targets. -/
def TargetOs.mobile : TargetOs → Bool
  | .ios => true
  | .android => true
  | _ => false

/-- Guard of the first setup block: `#[cfg(target_os = "macos")]`. -/
def cfg_macos (os : TargetOs) : Bool := os = TargetOs.macos

/-- Guard of the second setup block:
`#[cfg(all(not(target_os = "macos"), not(mobile)))]`. -/
def cfg_desktop_non_macos (os : TargetOs) : Bool :=
  !(cfg_macos os) && !(os.mobile)

/-- Guard of the third setup block: `#[cfg(mobile)]`. -/
def cfg_mobile (os : TargetOs) : Bool := os.mobile

/-- `log::LevelFilter` from the `log` crate. -/
inductive LevelFilter where
  | Off
  | Error
  | Warn
  | Info
  | Debug
  | Trace
deriving DecidableEq, Repr, Fintype

/-- The framework plugins registered by `run`: `tauri_plugin_dialog`,
`tauri_plugin_http`, and `tauri_plugin_log` carrying its level filter. -/
inductive Plugin where
  | dialog
  | http
  | log (level : LevelFilter)
deriving DecidableEq, Repr

/-- `tauri_plugin_log::Builder`: only the level filter is touched by the
source. -/
structure LogBuilder where
  levelFilter : LevelFilter
deriving DecidableEq, Repr

/-- `tauri_plugin_log::Builder::default()`; the crate's default maximum level
is `Trace` (the source overrides it). -/
def LogBuilder.default : LogBuilder := ⟨LevelFilter.Trace⟩

/-- `tauri_plugin_log::Builder::level`. -/
def LogBuilder.level (_b : LogBuilder) (l : LevelFilter) : LogBuilder := ⟨l⟩

/-- `tauri_plugin_log::Builder::build`: produces the log plugin with the
configured level filter. -/
def LogBuilder.build (b : LogBuilder) : Plugin := Plugin.log b.levelFilter

/-- `tauri::Builder`: only the ordered plugin list matters to the claims. -/
structure Builder where
  plugins : List Plugin
deriving DecidableEq, Repr

/-- `tauri::Builder::default()`: no plugins registered. -/
def Builder.default : Builder := ⟨[]⟩

/-- `tauri::Builder::plugin`: appends one plugin, preserving registration
order. -/
def Builder.plugin (b : Builder) (p : Plugin) : Builder :=
  ⟨b.plugins ++ [p]⟩

/-- The builder value produced by the plugin-registration chain in `run`,
before `.setup(...)` is installed.  Plugin registration happens outside every
`cfg` block, so it does not depend on the target platform. -/
def appBuilder : Builder :=
  ((Builder.default.plugin Plugin.dialog).plugin Plugin.http).plugin
    ((LogBuilder.default.level LevelFilter.Info).build)

/-- Plugins registered at startup on the given platform: the `cfg` branches
only affect the setup closure, so the list is the same chain for every
platform. -/
def registeredPlugins (_os : TargetOs) : List Plugin := appBuilder.plugins

/-- `tauri::TitleBarStyle` (the source only uses `Overlay`). -/
inductive TitleBarStyle where
  | Visible
  | Transparent
  | Overlay
deriving DecidableEq, Repr

/-- `tauri::WebviewUrl`: the `App` variant holds a path into the app's
distribution directory. -/
inductive WebviewUrl where
  | App (path : String)
deriving DecidableEq, Repr

/-- `WebviewUrl::default()` is `WebviewUrl::App("index.html")`. -/
def WebviewUrl.default : WebviewUrl := WebviewUrl.App "index.html"

/-- `tauri::WebviewWindowBuilder`: the declared window properties.  Fields are
`Option`-valued (or `false` for the placement flag) when the corresponding
builder method may be left uncalled. -/
structure WebviewWindowBuilder where
  winLabel : String
  winUrl : WebviewUrl
  winTitle : Option String := none
  winInnerSize : Option (Nat × Nat) := none
  winMinInnerSize : Option (Nat × Nat) := none
  winResizable : Option Bool := none
  winCentered : Bool := false
  winTitleBarStyle : Option TitleBarStyle := none
deriving DecidableEq, Repr

/-- `WebviewWindowBuilder::new(app, label, url)`. -/
def WebviewWindowBuilder.new (label : String) (url : WebviewUrl) :
    WebviewWindowBuilder :=
  { winLabel := label, winUrl := url }

/-- `WebviewWindowBuilder::title`. -/
def WebviewWindowBuilder.title (b : WebviewWindowBuilder) (t : String) :
    WebviewWindowBuilder :=
  { b with winTitle := some t }

/-- `WebviewWindowBuilder::inner_size` (logical units; source literals are
integral). -/
def WebviewWindowBuilder.inner_size (b : WebviewWindowBuilder)
    (w h : Nat) : WebviewWindowBuilder :=
  { b with winInnerSize := some (w, h) }

/-- `WebviewWindowBuilder::min_inner_size`. -/
def WebviewWindowBuilder.min_inner_size (b : WebviewWindowBuilder)
    (w h : Nat) : WebviewWindowBuilder :=
  { b with winMinInnerSize := some (w, h) }

/-- `WebviewWindowBuilder::resizable`. -/
def WebviewWindowBuilder.resizable (b : WebviewWindowBuilder) (r : Bool) :
    WebviewWindowBuilder :=
  { b with winResizable := some r }

/-- `WebviewWindowBuilder::center`. -/
def WebviewWindowBuilder.center (b : WebviewWindowBuilder) :
    WebviewWindowBuilder :=
  { b with winCentered := true }

/-- `WebviewWindowBuilder::title_bar_style`. -/
def WebviewWindowBuilder.title_bar_style (b : WebviewWindowBuilder)
    (s : TitleBarStyle) : WebviewWindowBuilder :=
  { b with winTitleBarStyle := some s }

/-- The window builder constructed in the `#[cfg(target_os = "macos")]` block
of the setup closure. -/
def macosWinBuilder : WebviewWindowBuilder :=
  (((((((WebviewWindowBuilder.new "main" WebviewUrl.default).title
    "").inner_size 1024 768).min_inner_size 400 300).resizable
    true).center).title_bar_style TitleBarStyle.Overlay)

/-- The window builder constructed in the
`#[cfg(all(not(target_os = "macos"), not(mobile)))]` block. -/
def desktopWinBuilder : WebviewWindowBuilder :=
  ((((((WebviewWindowBuilder.new "main" WebviewUrl.default).title
    "KC Songbook").inner_size 1024 768).min_inner_size 400
    300).resizable true).center)

/-- The window builder constructed in the `#[cfg(mobile)]` block. -/
def mobileWinBuilder : WebviewWindowBuilder :=
  WebviewWindowBuilder.new "main" WebviewUrl.default

/-- The window builders produced by the setup closure on a given platform, in
source block order: each `cfg` block contributes its builder exactly when its
guard holds for the target. -/
def setupBuilders (os : TargetOs) : List WebviewWindowBuilder :=
  (if cfg_macos os then [macosWinBuilder] else []) ++
  (if cfg_desktop_non_macos os then [desktopWinBuilder] else []) ++
  (if cfg_mobile os then [mobileWinBuilder] else [])

/-- A constructed webview window, as returned by the framework's
`WebviewWindowBuilder::build`. -/
structure WebviewWindow where
  fromBuilder : WebviewWindowBuilder
deriving DecidableEq, Repr

/-- The setup closure passed to `tauri::Builder::setup`: runs the compiled
`cfg` blocks in order, each calling `win_builder.build()?` so that a build
error propagates out of the closure; on success returns `Ok(())`.  The
framework's fallible window construction is the `build` parameter. -/
def setupClosure {ε : Type} (os : TargetOs)
    (build : WebviewWindowBuilder → Except ε WebviewWindow) :
    Except ε Unit := do
  if cfg_macos os then
    let _ ← build macosWinBuilder
  if cfg_desktop_non_macos os then
    let _ ← build desktopWinBuilder
  if cfg_mobile os then
    let _ ← build mobileWinBuilder
  pure ()

/-- Observable outcome of the entry point: either the framework run loop is
entered, or the process panics with a diagnostic message carrying the setup
error. -/
inductive RunOutcome (ε : Type) where
  | running : RunOutcome ε
  | panicked (msg : String) (err : ε) : RunOutcome ε
deriving DecidableEq, Repr

/-- The entry point `run`: plugin registration (platform-independent, see
`appBuilder`), then `.run(...)` whose result is unwrapped by
`.expect("error while running tauri application")` - a setup error becomes a
panic with that fixed message and the error value unchanged; otherwise the
run loop is entered. -/
def run {ε : Type} (os : TargetOs)
    (build : WebviewWindowBuilder → Except ε WebviewWindow) :
    RunOutcome ε :=
  match setupClosure os build with
  | Except.ok _ => RunOutcome.running
  | Except.error e =>
      RunOutcome.panicked "error while running tauri application" e

/-- C1: for every platform variant, the entry point registers exactly three
framework plugins on the application builder, in the fixed order dialog
access, then outbound HTTP, then log-level filtering. -/
theorem run_registers_three_plugins_in_fixed_order :
    ∀ os : TargetOs,
      registeredPlugins os =
        [Plugin.dialog, Plugin.http, Plugin.log LevelFilter.Info] ∧
      (registeredPlugins os).length = 3 := by
  decide

/-- C2: for every platform variant there is exactly one failure path: if
window construction fails during setup the error propagates unchanged and the
process aborts with the fixed message "error while running tauri application";
every run either enters the loop or panics with exactly that message - no
retry, recovery, or degraded mode. -/
theorem run_single_failure_path {ε : Type} (os : TargetOs) :
    (∀ (e : ε) (build : WebviewWindowBuilder → Except ε WebviewWindow),
        (∀ b, build b = Except.error e) →
        run os build =
          RunOutcome.panicked "error while running tauri application" e) ∧
    (∀ build : WebviewWindowBuilder → Except ε WebviewWindow,
        run os build = RunOutcome.running ∨
        ∃ e, run os build =
          RunOutcome.panicked "error while running tauri application" e) := by
  constructor
  · intro e build hfail
    cases os <;>
      simp [run, setupClosure, cfg_macos, cfg_desktop_non_macos, cfg_mobile,
        TargetOs.mobile, hfail]
  · intro build
    match h : setupClosure os build with
    | Except.ok u => exact Or.inl (by simp [run, h])
    | Except.error e => exact Or.inr ⟨e, by simp [run, h]⟩

/-- Witness for C2: a build function that always fails with error "boom" on a
macOS target makes the entry point panic with the fixed diagnostic message
carrying "boom" unchanged. -/
theorem run_single_failure_path_witness :
    run TargetOs.macos
        (fun _ => (Except.error "boom" : Except String WebviewWindow)) =
      RunOutcome.panicked "error while running tauri application" "boom" :=
  (run_single_failure_path TargetOs.macos).1 "boom" _ (fun _ => rfl)

/-- C3: on a macOS build the setup routine constructs exactly the macOS window
builder, which carries an overlay-style title bar and an empty title
string. -/
theorem macos_window_overlay_titlebar_empty_title :
    setupBuilders TargetOs.macos = [macosWinBuilder] ∧
    macosWinBuilder.winTitleBarStyle = some TitleBarStyle.Overlay ∧
    macosWinBuilder.winTitle = some "" := by
  decide

/-- C4: on a non-macOS desktop build the constructed window builder has title
"KC Songbook" and no title-bar style override. -/
theorem desktop_window_title_standard_titlebar :
    ∀ os : TargetOs, cfg_desktop_non_macos os = true →
      ∀ b ∈ setupBuilders os,
        b.winTitle = some "KC Songbook" ∧ b.winTitleBarStyle = none := by
  decide

/-- Witness for C4: the Windows target is a non-macOS desktop build and its
constructed window builder has title "KC Songbook" and no title-bar style. -/
theorem desktop_window_title_standard_titlebar_witness :
    desktopWinBuilder.winTitle = some "KC Songbook" ∧
    desktopWinBuilder.winTitleBarStyle = none :=
  desktop_window_title_standard_titlebar TargetOs.windows (by decide)
    desktopWinBuilder (by decide)

/-- C5: on both desktop variants the window builder sets initial inner size
1024x768 and minimum inner size 400x300. -/
theorem desktop_window_sizes :
    ∀ os : TargetOs, os.mobile = false →
      ∀ b ∈ setupBuilders os,
        b.winInnerSize = some (1024, 768) ∧
        b.winMinInnerSize = some (400, 300) := by
  decide

/-- Witness for C5: the Linux desktop target's window builder has initial size
1024x768 and minimum size 400x300. -/
theorem desktop_window_sizes_witness :
    desktopWinBuilder.winInnerSize = some (1024, 768) ∧
    desktopWinBuilder.winMinInnerSize = some (400, 300) :=
  desktop_window_sizes TargetOs.linux (by decide) desktopWinBuilder (by decide)

/-- C6: on a mobile build the setup routine constructs exactly the minimal
mobile window builder: no title, no size constraints, no title-bar style, no
placement directive, no resizable flag. -/
theorem mobile_window_minimal_config :
    ∀ os : TargetOs, cfg_mobile os = true →
      setupBuilders os = [mobileWinBuilder] ∧
      mobileWinBuilder.winTitle = none ∧
      mobileWinBuilder.winInnerSize = none ∧
      mobileWinBuilder.winMinInnerSize = none ∧
      mobileWinBuilder.winTitleBarStyle = none ∧
      mobileWinBuilder.winCentered = false ∧
      mobileWinBuilder.winResizable = none := by
  decide

/-- Witness for C6: iOS is a mobile target and its setup produces only the
minimal builder with every optional property unset. -/
theorem mobile_window_minimal_config_witness :
    setupBuilders TargetOs.ios = [mobileWinBuilder] ∧
    mobileWinBuilder.winTitle = none ∧
    mobileWinBuilder.winInnerSize = none ∧
    mobileWinBuilder.winMinInnerSize = none ∧
    mobileWinBuilder.winTitleBarStyle = none ∧
    mobileWinBuilder.winCentered = false ∧
    mobileWinBuilder.winResizable = none :=
  mobile_window_minimal_config TargetOs.ios (by decide)

/-- Counterexample to C7 as stated: it is not the case that on every platform
variant the constructed window builder requests centered placement - the
mobile branch (e.g. iOS) never calls the centering method. -/
theorem centered_placement_counterexample :
    ¬ (∀ os : TargetOs, ∀ b ∈ setupBuilders os, b.winCentered = true) := by
  decide

/-- C7 (amended): centered placement is requested on both desktop variants,
while the mobile builder leaves placement unset. -/
theorem centered_placement_desktop_only :
    ∀ os : TargetOs,
      (os.mobile = false → ∀ b ∈ setupBuilders os, b.winCentered = true) ∧
      (os.mobile = true → ∀ b ∈ setupBuilders os, b.winCentered = false) := by
  decide

/-- Witness for amended C7: the macOS builder requests centering and the
mobile builder does not. -/
theorem centered_placement_desktop_only_witness :
    macosWinBuilder.winCentered = true ∧ mobileWinBuilder.winCentered = false :=
  ⟨(centered_placement_desktop_only TargetOs.macos).1 (by decide)
      macosWinBuilder (by decide),
    (centered_placement_desktop_only TargetOs.ios).2 (by decide)
      mobileWinBuilder (by decide)⟩

/-- C8: for every platform variant the registered logger plugin is configured
with the informational level filter, and it is the only logger plugin. -/
theorem logger_level_info :
    ∀ os : TargetOs,
      Plugin.log LevelFilter.Info ∈ registeredPlugins os ∧
      ∀ l, Plugin.log l ∈ registeredPlugins os → l = LevelFilter.Info := by
  decide

/-- Witness for C8: on macOS the only level filter carried by a registered
logger plugin is the informational one. -/
theorem logger_level_info_witness :
    LevelFilter.Info = LevelFilter.Info :=
  (logger_level_info TargetOs.macos).2 LevelFilter.Info (by decide)

/-- C9: for every platform variant the setup routine constructs exactly one
webview window builder, with label "main" and the default webview URL, and
exactly one of the three compile-time guards is active. -/
theorem setup_exactly_one_main_window :
    ∀ os : TargetOs,
      (setupBuilders os).length = 1 ∧
      (∀ b ∈ setupBuilders os,
        b.winLabel = "main" ∧ b.winUrl = WebviewUrl.default) ∧
      ((if cfg_macos os then 1 else 0) +
        (if cfg_desktop_non_macos os then 1 else 0) +
        (if cfg_mobile os then 1 else 0) = 1) := by
  decide

/-- Witness for C9: the macOS builder constructed by setup has label "main"
and the default webview URL. -/
theorem setup_exactly_one_main_window_witness :
    macosWinBuilder.winLabel = "main" ∧
    macosWinBuilder.winUrl = WebviewUrl.default :=
  (setup_exactly_one_main_window TargetOs.macos).2.1 macosWinBuilder
    (by decide)

/-- C10: on both desktop variants the window builder explicitly marks the
window as resizable. -/
theorem desktop_window_resizable :
    ∀ os : TargetOs, os.mobile = false →
      ∀ b ∈ setupBuilders os, b.winResizable = some true := by
  decide

/-- Witness for C10: the Windows desktop target's window builder is explicitly
resizable. -/
theorem desktop_window_resizable_witness :
    desktopWinBuilder.winResizable = some true :=
  desktop_window_resizable TargetOs.windows (by decide) desktopWinBuilder
    (by decide)
